import Mathlib

set_option maxHeartbeats 1000000

/-! Shallow embedding of the rn_scraper pipeline (src/main.py): page fetching
with bounded retry, per-prefix page iteration, row normalization, and the
filter/upsert persistence layer, together with theorems settling the spec
claims about them. -/

/-- Decidable equality of Except values, so concrete runs of the fallible
operations can be checked by evaluation. -/
instance {ε α : Type} [DecidableEq ε] [DecidableEq α] : DecidableEq (Except ε α) := fun a b =>
  match a, b with
  | .ok x, .ok y =>
    if h : x = y then .isTrue (by rw [h])
    else .isFalse (fun hc => h (Except.ok.inj hc))
  | .error x, .error y =>
    if h : x = y then .isTrue (by rw [h])
    else .isFalse (fun hc => h (Except.error.inj hc))
  | .ok _, .error _ => .isFalse (fun hc => Except.noConfusion hc)
  | .error _, .ok _ => .isFalse (fun hc => Except.noConfusion hc)

namespace Scraper

/-- A raw JSON field of a record: absent, a plain string scalar, or a
one-level wrapper dict whose value key may itself be null or a string.
Mirrors the shapes handled by the `v` helper in src/main.py. -/
inductive RawValue where
  | absent
  | str (s : String)
  | wrapped (value : Option String)
deriving Repr, DecidableEq

/-- One raw record of a page's content list, with the fields read by
`extract_rows` in src/main.py. -/
structure RawRecord where
  licenseNumber : RawValue
  name : RawValue
  profession : RawValue
  address : RawValue
  city : RawValue
  state : RawValue
  dateOfLicensure : RawValue
deriving Repr, DecidableEq

/-- The content field of a page payload: absent key, JSON null, or a list of
records. `data.get("content", [])` distinguishes all three. -/
inductive ContentField where
  | absent
  | null
  | list (items : List RawRecord)
deriving Repr, DecidableEq

/-- A parsed page payload: optional totalPages metadata plus the content
field. -/
structure Page where
  totalPages : Option Int
  content : ContentField
deriving Repr, DecidableEq

/-- Python `data.get("content", [])`: an absent key yields the empty-list
default, a null value yields Python None (modelled as `none`), a list is
passed through. -/
def contentOrEmpty : ContentField → Option (List RawRecord)
  | .absent => some []
  | .null => none
  | .list xs => some xs

/-- An HTTP response as seen by `fetch_page`: a status code and, for status
200, a parsed page body. -/
structure HttpResponse where
  status : Nat
  body : Page

/-- Result of one `fetch_page` call: the payload if any, how many HTTP
attempts were issued, and the total backoff wait in seconds. -/
structure FetchResult where
  payload : Option Page
  attempts : Nat
  totalWait : Nat
deriving Repr, DecidableEq

/-- The transient statuses retried by `fetch_page` in src/main.py line 51. -/
def retryableStatuses : List Nat := [408, 429, 500, 502, 503, 504]

/-- The retry loop of `fetch_page` (src/main.py lines 47-60): `resp i` is the
response to attempt `i`; status 200 returns the body, a retryable status
sleeps 2*(attempt+1) seconds and retries, any other status returns None
immediately; exhausting the attempts returns None. -/
def fetchPageGo (resp : Nat → HttpResponse) : Nat → Nat → Nat → FetchResult
  | attempt, waited, 0 => ⟨none, attempt, waited⟩
  | attempt, waited, remaining + 1 =>
    if (resp attempt).status = 200 then ⟨some (resp attempt).body, attempt + 1, waited⟩
    else if (resp attempt).status ∈ retryableStatuses then
      fetchPageGo resp (attempt + 1) (waited + 2 * (attempt + 1)) remaining
    else ⟨none, attempt + 1, waited⟩

/-- `fetch_page` from src/main.py: up to 5 attempts. -/
def fetch_page (resp : Nat → HttpResponse) : FetchResult :=
  fetchPageGo resp 0 0 5

/-- Whether the page loop stops after the current page or moves to the next
page index. -/
inductive StepDecision where
  | stop
  | next
deriving Repr, DecidableEq

/-- The continuation test of `iterate_pages_for_prefix` (src/main.py lines
75-85), applied after a page has been yielded: with totalPages metadata,
stop once `page_number >= totalPages - 1`; without it, stop exactly when
`data.get("content", [])` is a list of length zero (a null content value
fails the `items is not None` guard and continues). -/
def continuationDecision (data : Page) (page_number : Nat) : StepDecision :=
  match data.totalPages with
  | some total_pages =>
    if (page_number : Int) ≥ total_pages - 1 then .stop else .next
  | none =>
    match contentOrEmpty data.content with
    | some items => if items.length = 0 then .stop else .next
    | none => .next

/-- `iterate_pages_for_prefix` (src/main.py lines 64-85) as the list of pages
the generator yields, starting at a given page index, with fuel bounding the
number of loop iterations. A failed fetch ends the sequence without a yield;
otherwise the page is yielded first and the continuation decision is applied
afterwards, so a stopping page is still yielded. -/
def iteratePages (fetch : Nat → Option Page) : Nat → Nat → List Page
  | _, 0 => []
  | page_number, fuel + 1 =>
    match fetch page_number with
    | none => []
    | some data =>
      match continuationDecision data page_number with
      | .stop => [data]
      | .next => data :: iteratePages fetch (page_number + 1) fuel

/-- The page sequence for one prefix when page `n` is served by the per-page
response function `respFor n` through `fetch_page`. -/
def fetchSequence (respFor : Nat → Nat → HttpResponse) (fuel : Nat) : List Page :=
  iteratePages (fun n => (fetch_page (respFor n)).payload) 0 fuel

/-- The `v` helper of src/main.py lines 101-104: a dict is unwrapped to its
value key, anything else passes through (absent stays absent). -/
def v : RawValue → Option String
  | .absent => none
  | .str s => some s
  | .wrapped value => value

/-- A calendar date as produced by `datetime.strptime(...).date()`. -/
structure PDate where
  year : Nat
  month : Nat
  day : Nat
deriving Repr, DecidableEq

/-- The twelve full month names, lowercased, for case-insensitive matching of
the strptime directive for a full month name. -/
def monthNamesLower : List String :=
  ["january", "february", "march", "april", "may", "june",
   "july", "august", "september", "october", "november", "december"]

/-- ASCII lowercasing of a string, character by character. -/
def lowerStr (s : String) : String :=
  String.mk (s.data.map Char.toLower)

/-- Splitting a character list on every occurrence of a comma followed by a
space. -/
def splitOnCS : List Char → List (List Char)
  | [] => [[]]
  | ',' :: ' ' :: rest => [] :: splitOnCS rest
  | c :: rest =>
    match splitOnCS rest with
    | [] => [[c]]
    | p :: ps => (c :: p) :: ps

/-- Splitting a character list on every space. -/
def splitOnSp : List Char → List (List Char)
  | [] => [[]]
  | ' ' :: rest => [] :: splitOnSp rest
  | c :: rest =>
    match splitOnSp rest with
    | [] => [[c]]
    | p :: ps => (c :: p) :: ps

/-- The numeric value of a nonempty all-digit character list. -/
def digitsToNat? (cs : List Char) : Option Nat :=
  if cs ≠ [] ∧ cs.all (·.isDigit) then
    some (cs.foldl (fun a c => a * 10 + (c.toNat - 48)) 0)
  else none

/-- One-based month number of a full month name, case-insensitively. -/
def monthIndex (cs : List Char) : Option Nat :=
  (monthNamesLower.findIdx? (fun m => m.data == cs.map Char.toLower)).map (· + 1)

/-- Gregorian leap-year test, as used by the datetime validation. -/
def isLeap (y : Nat) : Bool :=
  (y % 4 == 0 && y % 100 != 0) || (y % 400 == 0)

/-- Number of days in a month, validating the parsed day. -/
def daysInMonth (y m : Nat) : Nat :=
  if m = 2 then (if isLeap y then 29 else 28)
  else if m = 4 ∨ m = 6 ∨ m = 9 ∨ m = 11 then 30
  else 31

/-- Parsing a string against the strptime format used at src/main.py line 98:
full month name (case-insensitive), a space, a 1-2 digit day, a comma and a
space, a 4-digit year; the day must be valid for the month. Any other shape
fails. -/
def parseDateMBY (s : String) : Option PDate :=
  match splitOnCS s.data with
  | [monthDay, yearCs] =>
    match splitOnSp monthDay with
    | [monthCs, dayCs] =>
      match monthIndex monthCs, digitsToNat? dayCs, digitsToNat? yearCs with
      | some m, some d, some y =>
        if yearCs.length = 4 ∧ 1 ≤ dayCs.length ∧ dayCs.length ≤ 2
            ∧ 1 ≤ d ∧ d ≤ daysInMonth y m
        then some ⟨y, m, d⟩ else none
      | _, _, _ => none
    | _ => none
  | _ => none

/-- `clean_date` from src/main.py lines 94-98, on an already-unwrapped value
(the inner `v` call is the identity on scalars): a missing or empty value, or
one case-insensitively equal to the null or not-on-file sentinels, is unset;
anything else must parse in the strptime format or the call raises, modelled
as the error case. -/
def clean_date (val : Option String) : Except Unit (Option PDate) :=
  match val with
  | none => .ok none
  | some s =>
    if s = "" ∨ lowerStr s = "null" ∨ lowerStr s = "not on file" then .ok none
    else
      match parseDateMBY s with
      | some d => .ok (some d)
      | none => .error ()

/-- Python string truthiness of an optional string: None and the empty string
are falsy. -/
def truthyStr : Option String → Bool
  | none => false
  | some s => !(s == "")

/-- The generator filter in the address expression of src/main.py line 117:
keep only truthy parts. -/
def truthyParts : List (Option String) → List String
  | [] => []
  | none :: rest => truthyParts rest
  | some s :: rest => if s = "" then truthyParts rest else s :: truthyParts rest

/-- Python string join with a single-space separator. -/
def spaceJoin : List String → String
  | [] => ""
  | [x] => x
  | x :: y :: rest => x ++ " " ++ spaceJoin (y :: rest)

/-- The address expression of src/main.py lines 116-118:
`v(address) or " ".join(truthy of [v(city), v(state)]) or None`. -/
def derive_address (addr city state : Option String) : Option String :=
  if truthyStr addr then addr
  else
    let joined := spaceJoin (truthyParts [city, state])
    if joined = "" then none else some joined

/-- One normalized row as appended by `extract_rows` in src/main.py lines
112-120. -/
structure Row where
  license_number : Option String
  name : Option String
  profession : Option String
  address : Option String
  date_of_licensure : Option PDate
deriving Repr, DecidableEq

/-- Normalization of one raw record (the dict built at src/main.py lines
112-120); a date parse failure raises out of the whole page. -/
def extract_row (r : RawRecord) : Except Unit Row :=
  match clean_date (v r.dateOfLicensure) with
  | .error e => .error e
  | .ok d =>
    .ok { license_number := v r.licenseNumber
          name := v r.name
          profession := v r.profession
          address := derive_address (v r.address) (v r.city) (v r.state)
          date_of_licensure := d }

/-- `extract_rows` from src/main.py lines 106-121: a falsy payload yields no
rows; otherwise each content record is normalized in order (iterating a null
content value raises in the source, modelled as the error case). -/
def extract_rows (page_data : Option Page) : Except Unit (List Row) :=
  match page_data with
  | none => .ok []
  | some p =>
    match contentOrEmpty p.content with
    | none => .error ()
    | some items => items.mapM extract_row

/-- Modelled from the spec: the address composed from city and state,
space-joined with absent parts skipped — the spec-side definition for
comparing against the source's join expression. -/
def composedAddressSpec (city state : Option String) : Option String :=
  match (if truthyStr city then city else none),
        (if truthyStr state then state else none) with
  | some c, some s => some (c ++ " " ++ s)
  | some c, none => some c
  | none, some s => some s
  | none, none => none

/-- One stored row of the rn_licenses table, minus the primary-key column
under which it is stored. -/
structure StoredRow where
  name : Option String
  profession : Option String
  address : Option String
  date_of_licensure : Option PDate
deriving Repr, DecidableEq

/-- The rn_licenses table keyed by its license_number primary key (at most
one row per key, enforced by the key-indexed representation). -/
def Store : Type := Option String → Option StoredRow

/-- The table right after `create_table`, holding no rows. -/
def emptyStore : Store := fun _ => none

/-- The non-key column values carried by one normalized row. -/
def storedOf (r : Row) : StoredRow :=
  ⟨r.name, r.profession, r.address, r.date_of_licensure⟩

/-- Effect on the table of one INSERT ... ON CONFLICT DO UPDATE statement:
the row under the key becomes the incoming values, other keys unchanged. -/
def upsert (st : Store) (r : Row) : Store :=
  fun k => if k = r.license_number then some (storedOf r) else st k

/-- Conflict handling of an INSERT statement: a bare INSERT, or the
ON CONFLICT (license_number) DO UPDATE clause of src/main.py lines 165-169. -/
inductive ConflictClause where
  | bare
  | doUpdateNonKey
deriving Repr, DecidableEq

/-- How a single insert statement resolved. -/
inductive InsertOutcome where
  | insertedNew
  | updatedExisting
deriving Repr, DecidableEq

/-- The database error raised when a bare INSERT hits an existing key. -/
def duplicateKeyMessage : String :=
  "duplicate key value violates unique constraint"

/-- Executing one INSERT against the table: on a fresh key the row is added;
on an existing key a bare INSERT raises a duplicate-key error while the
DO UPDATE clause overwrites the non-key columns instead. -/
def execInsert (clause : ConflictClause) (st : Store) (r : Row) :
    Except String (Store × InsertOutcome) :=
  match st r.license_number with
  | some _ =>
    match clause with
    | .bare => .error duplicateKeyMessage
    | .doUpdateNonKey => .ok (upsert st r, .updatedExisting)
  | none => .ok (upsert st r, .insertedNew)

/-- `insert_rows` from src/main.py lines 157-178: one upsert statement per
row, in order, each using the DO UPDATE clause; returns the table and the
key of every executed write statement. -/
def insert_rows : Store → List Row → Except String (Store × List (Option String))
  | st, [] => .ok (st, [])
  | st, r :: rest =>
    match execInsert .doUpdateNonKey st r with
    | .error e => .error e
    | .ok (st', _) =>
      match insert_rows st' rest with
      | .error e => .error e
      | .ok (st'', writes) => .ok (st'', r.license_number :: writes)

/-- `filter_existing_rows` from src/main.py lines 140-153: one SELECT fetches
which of the batch's license numbers already exist, and every row whose
license number is already stored is dropped, regardless of its other field
values. -/
def filter_existing_rows (st : Store) (rows : List Row) : List Row :=
  rows.filter (fun r => (st r.license_number).isNone)

/-- Observable storage effects of handling one page's batch: how many SELECT
queries were issued, the key of each executed write statement, and whether
main's loop breaks out of the current prefix. -/
structure BatchEffect where
  selectQueries : Nat
  writeStatements : List (Option String)
  stoppedPartition : Bool
deriving Repr, DecidableEq

/-- The per-page body of `main` (src/main.py lines 189-198): the batch is
always passed to `filter_existing_rows` (which issues its SELECT even for an
empty batch); if nothing survives the filter the prefix loop breaks with no
write, otherwise the surviving rows are upserted. -/
def processBatch (st : Store) (rows : List Row) : Except String (Store × BatchEffect) :=
  let new_rows := filter_existing_rows st rows
  if new_rows.isEmpty then .ok (st, ⟨1, [], true⟩)
  else
    match insert_rows st new_rows with
    | .error e => .error e
    | .ok (st', writes) => .ok (st', ⟨1, writes, false⟩)

/-- The table after one page's batch has been handled. -/
def afterBatch (st : Store) (rows : List Row) : Store :=
  match processBatch st rows with
  | .ok (st', _) => st'
  | .error _ => st

/-- The keys of the write statements executed for one page's batch. -/
def batchWrites (st : Store) (rows : List Row) : List (Option String) :=
  match processBatch st rows with
  | .ok (_, eff) => eff.writeStatements
  | .error _ => []

/-- The number of SELECT queries issued while handling one page's batch. -/
def batchQueries (st : Store) (rows : List Row) : Nat :=
  match processBatch st rows with
  | .ok (_, eff) => eff.selectQueries
  | .error _ => 1

/-- How many write statements a batch executes for one license number. -/
def writesCount (st : Store) (rows : List Row) (l : Option String) : Nat :=
  (batchWrites st rows).count l

/-! ### Concrete inputs used to exercise the model -/

/-- A raw record with every field absent. -/
def blankRecord : RawRecord :=
  ⟨.absent, .absent, .absent, .absent, .absent, .absent, .absent⟩

/-- A page with no totalPages metadata and 100 content records. -/
def fullPage : Page := ⟨none, .list (List.replicate 100 blankRecord)⟩

/-- A page with no totalPages metadata and an exactly empty content list. -/
def emptyContentPage : Page := ⟨none, .list []⟩

/-- A page with no totalPages metadata and an absent content key. -/
def absentContentPage : Page := ⟨none, .absent⟩

/-- A page with no totalPages metadata and a null content value. -/
def nullContentPage : Page := ⟨none, .null⟩

/-- A fetch function serving content sizes 100, 100, 0, 0, ... with no
totalPages metadata. -/
def fetchC2 : Nat → Option Page :=
  fun n => if n ≤ 1 then some fullPage else some emptyContentPage

/-- A fetch function whose page 0 has an absent content key while every
later page is full. -/
def fetchAbsent : Nat → Option Page :=
  fun n => if n = 0 then some absentContentPage else some fullPage

/-- A server that answers status 503 on every page and every attempt. -/
def resp503 : Nat → Nat → HttpResponse := fun _ _ => ⟨503, emptyContentPage⟩

/-- A server that answers status 201 on every attempt. -/
def resp201 : Nat → HttpResponse := fun _ => ⟨201, emptyContentPage⟩

/-- A raw record with a direct address absent and city and state present. -/
def albanyRecord : RawRecord :=
  ⟨.str "L9", .str "Jane", .absent, .absent, .str "Albany", .str "NY", .absent⟩

/-- The normalized row of `albanyRecord`. -/
def albanyRow : Row := ⟨some "L9", some "Jane", none, some "Albany NY", none⟩

/-- A normalized row for license L1 with name A. -/
def rowNameA : Row := ⟨some "L1", some "A", none, none, none⟩

/-- A normalized row for license L1 with changed name B. -/
def rowNameB : Row := ⟨some "L1", some "B", none, none, none⟩

/-- A store already holding license L1 with name A. -/
def storeWithA : Store :=
  fun k => if k = some "L1" then some (storedOf rowNameA) else none

/-! ### Helper lemmas -/

/-- One unfolding step of the page loop. -/
theorem iteratePages_step (fetch : Nat → Option Page) (n fuel : Nat) :
    iteratePages fetch n (fuel + 1) =
      match fetch n with
      | none => []
      | some data =>
        match continuationDecision data n with
        | .stop => [data]
        | .next => data :: iteratePages fetch (n + 1) fuel := rfl

/-- When every attempt gets status 503, the retry loop consumes all its
attempts and produces no payload. -/
theorem fetchPageGo_all503 (resp : Nat → HttpResponse)
    (h : ∀ i, (resp i).status = 503) :
    ∀ remaining attempt waited,
      (fetchPageGo resp attempt waited remaining).payload = none
      ∧ (fetchPageGo resp attempt waited remaining).attempts = attempt + remaining := by
  intro remaining
  induction remaining with
  | zero => intro attempt waited; exact ⟨rfl, rfl⟩
  | succ k ih =>
    intro attempt waited
    have hred : fetchPageGo resp attempt waited (k + 1)
        = fetchPageGo resp (attempt + 1) (waited + 2 * (attempt + 1)) k := by
      simp [fetchPageGo, h attempt, retryableStatuses]
    rcases ih (attempt + 1) (waited + 2 * (attempt + 1)) with ⟨hp, ha⟩
    rw [hred]
    exact ⟨hp, ha.trans (by omega)⟩

/-- `insert_rows` never errors: every statement carries the DO UPDATE
clause, so the result is the fold of upserts plus one write per row. -/
theorem insert_rows_eq (rows : List Row) : ∀ st : Store,
    insert_rows st rows
      = .ok (rows.foldl upsert st, rows.map (fun r => r.license_number)) := by
  induction rows with
  | nil => intro st; rfl
  | cons r rest ih =>
    intro st
    cases h : st r.license_number with
    | none => simp [insert_rows, execInsert, h, ih]
    | some w => simp [insert_rows, execInsert, h, ih]

/-- A fold of upserts leaves untouched every key none of the rows carries. -/
theorem foldl_upsert_ne (rows : List Row) (st : Store) (l : Option String)
    (h : ∀ r ∈ rows, r.license_number ≠ l) :
    (rows.foldl upsert st) l = st l := by
  revert h
  induction rows generalizing st with
  | nil => intro h; rfl
  | cons r rest ih =>
    intro h
    simp only [List.foldl_cons]
    rw [ih (upsert st r) (fun x hx => h x (List.mem_cons_of_mem r hx))]
    have h1 : ¬ (l = r.license_number) :=
      fun e => h r (List.mem_cons_self r rest) e.symm
    simp [upsert, h1]

/-- Counting a key in the mapped-out licenses is counting the rows carrying
that license. -/
theorem count_map_license (rs : List Row) (l : Option String) :
    (rs.map (fun r => r.license_number)).count l
      = rs.countP (fun r => r.license_number == l) := by
  induction rs with
  | nil => rfl
  | cons r rest ih => simp [List.count_cons, List.countP_cons, ih]

/-- When a license is not stored, the existing filter keeps every occurrence
of it. -/
theorem countP_filter_new (rows : List Row) (st : Store) (l : Option String)
    (hl : (st l).isNone = true) :
    (filter_existing_rows st rows).countP (fun r => r.license_number == l)
      = rows.countP (fun r => r.license_number == l) := by
  unfold filter_existing_rows
  induction rows with
  | nil => rfl
  | cons r rest ih =>
    rw [List.filter_cons]
    by_cases hkeep : (st r.license_number).isNone = true
    · rw [if_pos hkeep, List.countP_cons, List.countP_cons, ih]
    · have hr : ¬ ((r.license_number == l) = true) := by
        intro he
        have hrl : r.license_number = l := by simpa using he
        rw [hrl] at hkeep
        exact hkeep hl
      rw [if_neg hkeep, ih, List.countP_cons]
      simp [hr]

/-- The write statements of a batch are exactly one per filter-surviving
row, keyed by its license number. -/
theorem batchWrites_eq (st : Store) (rows : List Row) :
    batchWrites st rows
      = (filter_existing_rows st rows).map (fun r => r.license_number) := by
  by_cases h : (filter_existing_rows st rows).isEmpty
  · have he : filter_existing_rows st rows = [] := by
      simpa [List.isEmpty_iff] using h
    simp [batchWrites, processBatch, h, he]
  · simp [batchWrites, processBatch, h, insert_rows_eq]

/-- The store after a batch is the fold of upserts over the
filter-surviving rows. -/
theorem afterBatch_eq (st : Store) (rows : List Row) :
    afterBatch st rows = (filter_existing_rows st rows).foldl upsert st := by
  by_cases h : (filter_existing_rows st rows).isEmpty
  · have he : filter_existing_rows st rows = [] := by
      simpa [List.isEmpty_iff] using h
    simp [afterBatch, processBatch, h, he]
  · simp [afterBatch, processBatch, h, insert_rows_eq]

/-- Every row surviving the existing filter has an unstored license. -/
theorem filter_licenses_not_stored (st : Store) (rows : List Row) (r : Row)
    (hr : r ∈ filter_existing_rows st rows) :
    (st r.license_number).isNone = true := by
  have := List.mem_filter.mp hr
  exact this.2

/-- A batch executes no write statement for an already-stored license. -/
theorem writesCount_of_stored (st : Store) (rows : List Row) (l : Option String)
    (h : (st l).isSome = true) : writesCount st rows l = 0 := by
  rw [writesCount, batchWrites_eq]
  apply List.count_eq_zero.mpr
  intro hmem
  rcases List.mem_map.mp hmem with ⟨r, hrmem, hrl⟩
  have hn := filter_licenses_not_stored st rows r hrmem
  rw [hrl] at hn
  rw [Option.isNone_iff_eq_none] at hn
  rw [hn] at h
  exact absurd h (by simp)

/-- A batch leaves every already-stored row exactly as it was. -/
theorem afterBatch_preserves_stored (st : Store) (rows : List Row)
    (l : Option String) (w : StoredRow) (h : st l = some w) :
    afterBatch st rows l = some w := by
  have hne : ∀ r ∈ filter_existing_rows st rows, r.license_number ≠ l := by
    intro r hr he
    have hn := filter_licenses_not_stored st rows r hr
    rw [he, h] at hn
    exact absurd hn (by simp)
  rw [afterBatch_eq, foldl_upsert_ne (filter_existing_rows st rows) st l hne, h]

/-- The address fallback of the source's join expression agrees with the
spec-side composition from city and state. -/
theorem derive_address_of_not_truthy (addr city state : Option String)
    (h : truthyStr addr = false) :
    derive_address addr city state = composedAddressSpec city state := by
  have hone : (" " : String).length = 1 := rfl
  have hstep : derive_address addr city state
      = (if spaceJoin (truthyParts [city, state]) = "" then none
         else some (spaceJoin (truthyParts [city, state]))) := by
    unfold derive_address
    rw [h]
    simp
  rw [hstep]
  cases city with
  | none =>
    cases state with
    | none => simp [truthyParts, spaceJoin, composedAddressSpec, truthyStr]
    | some s =>
      by_cases hs : s = ""
      · simp [truthyParts, spaceJoin, composedAddressSpec, truthyStr, hs]
      · simp [truthyParts, spaceJoin, composedAddressSpec, truthyStr, hs]
  | some c =>
    by_cases hc : c = ""
    · cases state with
      | none =>
        simp [truthyParts, spaceJoin, composedAddressSpec, truthyStr, hc]
      | some s =>
        by_cases hs : s = ""
        · simp [truthyParts, spaceJoin, composedAddressSpec, truthyStr, hc, hs]
        · simp [truthyParts, spaceJoin, composedAddressSpec, truthyStr, hc, hs]
    · cases state with
      | none =>
        simp [truthyParts, spaceJoin, composedAddressSpec, truthyStr, hc]
      | some s =>
        by_cases hs : s = ""
        · simp [truthyParts, spaceJoin, composedAddressSpec, truthyStr, hc, hs]
        · have hne : ¬ (c ++ " " ++ s = "") := by
            intro he
            have hlen := congrArg String.length he
            rw [String.length_append, String.length_append] at hlen
            simp [hone, String.length_empty] at hlen
          simp [truthyParts, spaceJoin, composedAddressSpec, truthyStr, hc, hs, hne]

/-- The address of a successfully normalized row is the source's address
expression applied to its unwrapped fields. -/
theorem extract_row_address (r : RawRecord) (row : Row)
    (h : extract_row r = .ok row) :
    row.address = derive_address (v r.address) (v r.city) (v r.state) := by
  unfold extract_row at h
  cases hc : clean_date (v r.dateOfLicensure) with
  | error e => rw [hc] at h; exact absurd h (by simp)
  | ok d =>
    rw [hc] at h
    have := Except.ok.inj h
    rw [← this]

/-! ### Claims -/

/-- C1, counterexample: license L1 is stored with name A; a batch carries the
same license with changed name B; the existing filter drops the row, no write
statement is executed, and the stored row keeps name A — the changed row is
not written, contrary to the claim. -/
theorem C1_counterexample :
    filter_existing_rows storeWithA [rowNameB] = []
    ∧ batchWrites storeWithA [rowNameB] = []
    ∧ afterBatch storeWithA [rowNameB] (some "L1") = some (storedOf rowNameA)
    ∧ storedOf rowNameA ≠ storedOf rowNameB :=
  ⟨by decide, by decide, by decide, by decide⟩

/-- C1, amended: the existing-identity filter drops every batch row whose
license_number is already stored, even when its non-key field values differ
from the stored values; no write statement is executed for such an identity
and its stored row is left exactly as it was. -/
theorem C1_amended_changed_rows_not_written (st : Store) (rows : List Row)
    (l : Option String) (w : StoredRow) (h : st l = some w) :
    (∀ r ∈ rows, r.license_number = l → r ∉ filter_existing_rows st rows)
    ∧ writesCount st rows l = 0
    ∧ afterBatch st rows l = some w := by
  refine ⟨?_, ?_, afterBatch_preserves_stored st rows l w h⟩
  · intro r hmem hrl hin
    have hn := filter_licenses_not_stored st rows r hin
    rw [hrl, h] at hn
    exact absurd hn (by simp)
  · exact writesCount_of_stored st rows l (by rw [h]; rfl)

/-- Witness for the amended C1 at the concrete store holding L1 with name A
and a batch carrying L1 with name B. -/
theorem C1_amended_changed_rows_not_written_witness :
    writesCount storeWithA [rowNameB] (some "L1") = 0
    ∧ afterBatch storeWithA [rowNameB] (some "L1") = some (storedOf rowNameA) := by
  have h := C1_amended_changed_rows_not_written storeWithA [rowNameB]
    (some "L1") (storedOf rowNameA) (by decide)
  exact ⟨h.2.1, h.2.2⟩

/-- C2, counterexample: with no totalPages and content sizes 100, 100, 0 the
sequencer emits 3 pages, not 2: the page is yielded before the continuation
test, so the empty-content page is emitted too. -/
theorem C2_counterexample :
    iteratePages fetchC2 0 10 = [fullPage, fullPage, emptyContentPage]
    ∧ (iteratePages fetchC2 0 10).length ≠ 2 :=
  ⟨by decide, by decide⟩

/-- C2, amended: for one partition key, when no page carries totalPages and
the fetched pages have content sizes 100, 100 and 0 in that order, the
sequencer emits exactly 3 pages — the empty-content page is emitted as well,
and the sequence stops right after it. -/
theorem C2_amended_empty_page_also_emitted (fetch : Nat → Option Page)
    (p0 p1 p2 : Page) (xs0 xs1 : List RawRecord) (fuel : Nat)
    (h0 : fetch 0 = some p0) (h1 : fetch 1 = some p1) (h2 : fetch 2 = some p2)
    (t0 : p0.totalPages = none) (t1 : p1.totalPages = none)
    (t2 : p2.totalPages = none)
    (c0 : p0.content = .list xs0) (c1 : p1.content = .list xs1)
    (c2 : p2.content = .list [])
    (n0 : xs0.length = 100) (n1 : xs1.length = 100) :
    iteratePages fetch 0 (fuel + 3) = [p0, p1, p2] := by
  have d0 : continuationDecision p0 0 = .next := by
    simp [continuationDecision, t0, c0, contentOrEmpty, n0]
  have d1 : continuationDecision p1 1 = .next := by
    simp [continuationDecision, t1, c1, contentOrEmpty, n1]
  have d2 : continuationDecision p2 2 = .stop := by
    simp [continuationDecision, t2, c2, contentOrEmpty]
  rw [show fuel + 3 = (fuel + 2) + 1 from rfl, iteratePages_step]
  simp only [h0, d0]
  rw [show fuel + 2 = (fuel + 1) + 1 from rfl, iteratePages_step]
  simp only [Nat.zero_add, h1, d1]
  rw [iteratePages_step]
  simp [h2, d2]

/-- Witness for the amended C2 at a concrete fetch function serving content
sizes 100, 100, 0. -/
theorem C2_amended_empty_page_also_emitted_witness :
    iteratePages fetchC2 0 3 = [fullPage, fullPage, emptyContentPage] :=
  C2_amended_empty_page_also_emitted fetchC2 fullPage fullPage emptyContentPage
    (List.replicate 100 blankRecord) (List.replicate 100 blankRecord) 0
    (by decide) (by decide) (by decide) rfl rfl rfl rfl rfl rfl
    (by decide) (by decide)

/-- C3, counterexample: a page whose content carries license L1 twice (names
A then B) against an empty store survives the filter twice and executes two
write statements for L1 in a single run — more than once, contrary to the
claim (each write is an upsert, so still no duplicate-key conflict). -/
theorem C3_counterexample :
    writesCount emptyStore [rowNameA, rowNameB] (some "L1") = 2
    ∧ ¬ (writesCount emptyStore [rowNameA, rowNameB] (some "L1") ≤ 1) :=
  ⟨by decide, by decide⟩

/-- C3, amended: no write ever raises a duplicate-key conflict (every
statement carries the DO UPDATE clause, so the insert step always succeeds),
and an already-stored license is never written again by a batch; but a
license not yet stored is written once per occurrence among the batch's
rows, hence more than once when a page's content repeats it. -/
theorem C3_amended_write_discipline (st : Store) (rows : List Row)
    (l : Option String) :
    (insert_rows st (filter_existing_rows st rows)).isOk = true
    ∧ ((st l).isSome = true → writesCount st rows l = 0)
    ∧ ((st l).isNone = true →
        writesCount st rows l = rows.countP (fun r => r.license_number == l)) := by
  refine ⟨?_, fun h => writesCount_of_stored st rows l h, ?_⟩
  · rw [insert_rows_eq]
    rfl
  · intro hl
    rw [writesCount, batchWrites_eq, count_map_license, countP_filter_new rows st l hl]

/-- Witness for the amended C3 at the empty store and a batch repeating
license L1. -/
theorem C3_amended_write_discipline_witness :
    (insert_rows emptyStore (filter_existing_rows emptyStore [rowNameA, rowNameB])).isOk = true
    ∧ writesCount emptyStore [rowNameA, rowNameB] (some "L1") = 2 := by
  have h := C3_amended_write_discipline emptyStore [rowNameA, rowNameB] (some "L1")
  refine ⟨h.1, ?_⟩
  rw [h.2.2 (by decide)]
  decide

/-- C4, counterexample: license L1 processed in one batch with name A and in
a later batch with name B: the second occurrence is dropped by the existing
filter, so the stored row keeps name A instead of the most recently
processed name B. -/
theorem C4_counterexample :
    (afterBatch (afterBatch emptyStore [rowNameA]) [rowNameB]) (some "L1")
      = some (storedOf rowNameA)
    ∧ ((afterBatch (afterBatch emptyStore [rowNameA]) [rowNameB]) (some "L1")).map
        StoredRow.name ≠ some (some "B") :=
  ⟨by decide, by decide⟩

/-- C4, amended: when both occurrences of a license_number reach the upsert
step as rows of one executed write sequence, the later write overwrites
every non-key field — the row stored under the unchanged identity key is
exactly the later row's values; an occurrence arriving in a later batch
after the license is already stored is filtered out instead and leaves the
stored row unchanged (see the C1 theorem for that half). -/
theorem C4_amended_last_write_wins (st : Store) (r1 r2 : Row)
    (l : Option String) (h1 : r1.license_number = l) (h2 : r2.license_number = l) :
    insert_rows st [r1, r2] = .ok (upsert (upsert st r1) r2, [l, l])
    ∧ (upsert (upsert st r1) r2) l = some (storedOf r2) := by
  constructor
  · rw [insert_rows_eq]
    simp [h1, h2]
  · simp [upsert, h2]

/-- Witness for the amended C4: two rows for L1 with names A then B written
in one sequence leave name B stored. -/
theorem C4_amended_last_write_wins_witness :
    insert_rows emptyStore [rowNameA, rowNameB]
      = .ok (upsert (upsert emptyStore rowNameA) rowNameB, [some "L1", some "L1"])
    ∧ (upsert (upsert emptyStore rowNameA) rowNameB) (some "L1")
      = some (storedOf rowNameB) :=
  C4_amended_last_write_wins emptyStore rowNameA rowNameB (some "L1") rfl rfl

/-- C5, counterexample: a page with an absent content key under the
no-metadata branch does not continue: the empty-list default of the content
lookup makes the stop test true, so the sequence terminates at that page
even though a full page is available at the next index. -/
theorem C5_counterexample :
    continuationDecision absentContentPage 0 ≠ .next
    ∧ iteratePages fetchAbsent 0 5 = [absentContentPage] :=
  ⟨by decide, by decide⟩

/-- C5, amended: under the no-totalPages branch a page whose content list is
null continues to the next page index, while an absent content key takes the
empty-list default and terminates the sequence exactly as an explicitly
empty content list does; any non-empty content list continues. -/
theorem C5_amended_null_continues_absent_stops (p : Page) (n : Nat)
    (h : p.totalPages = none) :
    (p.content = .null → continuationDecision p n = .next)
    ∧ (p.content = .absent → continuationDecision p n = .stop)
    ∧ (p.content = .list [] → continuationDecision p n = .stop)
    ∧ (∀ x xs, p.content = .list (x :: xs) → continuationDecision p n = .next) := by
  refine ⟨fun hc => ?_, fun hc => ?_, fun hc => ?_, fun x xs hc => ?_⟩ <;>
    simp [continuationDecision, h, hc, contentOrEmpty]

/-- Witness for the amended C5 at concrete null-content and absent-content
pages. -/
theorem C5_amended_null_continues_absent_stops_witness :
    continuationDecision nullContentPage 0 = .next
    ∧ continuationDecision absentContentPage 0 = .stop := by
  constructor
  · exact (C5_amended_null_continues_absent_stops nullContentPage 0 rfl).1 rfl
  · exact (C5_amended_null_continues_absent_stops absentContentPage 0 rfl).2.1 rfl

/-- C6, counterexample: handling a zero-row batch still issues one SELECT
existence query against the store (the filter step runs unconditionally), so
the claim that no query is performed on an empty batch is false. -/
theorem C6_counterexample :
    batchQueries emptyStore [] = 1 ∧ batchQueries emptyStore [] ≠ 0 :=
  ⟨by decide, by decide⟩

/-- C6, amended: a zero-row batch executes no write statement and leaves
every stored row unchanged, but the existence-check SELECT of the filter
step is still issued once before the empty result short-circuits the insert
step. -/
theorem C6_amended_empty_batch_still_queries (st : Store) :
    batchQueries st [] = 1
    ∧ batchWrites st [] = []
    ∧ ∀ k, afterBatch st [] k = st k :=
  ⟨rfl, rfl, fun _ => rfl⟩

/-- C7: date normalization maps "January 5, 2020" to 2020-01-05; the empty
string and any value case-insensitively equal to the null or not-on-file
sentinels (such as "Not on File") normalize to unset; and a value like
"13/45/2020" that does not match the full-month-name, day, 4-digit-year
format is a hard parse error, not a silently defaulted value. -/
theorem C7_clean_date_rules :
    clean_date (some "January 5, 2020") = .ok (some ⟨2020, 1, 5⟩)
    ∧ clean_date (some "") = .ok none
    ∧ (∀ s : String, lowerStr s = "null" ∨ lowerStr s = "not on file" →
        clean_date (some s) = .ok none)
    ∧ clean_date (some "Not on File") = .ok none
    ∧ clean_date (some "13/45/2020") = .error () := by
  refine ⟨by decide, by decide, ?_, by decide, by decide⟩
  intro s hs
  have hcond : s = "" ∨ lowerStr s = "null" ∨ lowerStr s = "not on file" := Or.inr hs
  have hstep : clean_date (some s)
      = (if s = "" ∨ lowerStr s = "null" ∨ lowerStr s = "not on file" then Except.ok none
         else
           match parseDateMBY s with
           | some d => Except.ok (some d)
           | none => Except.error ()) := rfl
  rw [hstep, if_pos hcond]

/-- Witness for C7's general sentinel rule at the concrete value "NULL". -/
theorem C7_clean_date_rules_witness :
    clean_date (some "NULL") = .ok none :=
  C7_clean_date_rules.2.2.1 "NULL" (Or.inl (by decide))

/-- C8: for every raw record whose normalization succeeds, the normalized
address equals the record's direct address value whenever that value is
present (truthy); otherwise it is the space-joined composition of city and
state with absent parts skipped; and when address, city and state are all
absent the normalized address is unset. -/
theorem C8_address_derivation (r : RawRecord) (row : Row)
    (h : extract_row r = .ok row) :
    (truthyStr (v r.address) = true → row.address = v r.address)
    ∧ (truthyStr (v r.address) = false →
        row.address = composedAddressSpec (v r.city) (v r.state))
    ∧ (v r.address = none → v r.city = none → v r.state = none →
        row.address = none) := by
  have ha := extract_row_address r row h
  refine ⟨?_, ?_, ?_⟩
  · intro ht
    rw [ha]
    unfold derive_address
    rw [ht]
    simp
  · intro hf
    rw [ha]
    exact derive_address_of_not_truthy _ _ _ hf
  · intro h1 h2 h3
    rw [ha, h1, h2, h3]
    rfl

/-- Witness for C8 at a record with address absent, city Albany and state
NY, whose derived address is the space-joined composition. -/
theorem C8_address_derivation_witness :
    extract_row albanyRecord = .ok albanyRow
    ∧ albanyRow.address = some "Albany NY" := by
  constructor
  · decide
  · have h := (C8_address_derivation albanyRecord albanyRow (by decide)).2.1 (by decide)
    rw [h]
    decide

/-- C9: when every attempt for a partition page returns status 503, the
fetcher makes exactly 5 attempts and returns no payload, and the partition's
page sequence terminates at that page with no page emitted — the failure is
a returned value, not an unhandled error. -/
theorem C9_retry_exhaustion (respFor : Nat → Nat → HttpResponse)
    (h : ∀ n i, (respFor n i).status = 503) :
    (fetch_page (respFor 0)).attempts = 5
    ∧ (fetch_page (respFor 0)).payload = none
    ∧ ∀ fuel, fetchSequence respFor (fuel + 1) = [] := by
  rcases fetchPageGo_all503 (respFor 0) (h 0) 5 0 0 with ⟨hp, ha⟩
  have hp2 : (fetch_page (respFor 0)).payload = none := hp
  refine ⟨ha, hp2, ?_⟩
  intro fuel
  unfold fetchSequence
  rw [iteratePages_step]
  simp [hp2]

/-- Witness for C9 at a server answering 503 on every page and attempt. -/
theorem C9_retry_exhaustion_witness :
    (fetch_page (resp503 0)).attempts = 5
    ∧ (fetch_page (resp503 0)).payload = none
    ∧ fetchSequence resp503 10 = [] := by
  have h := C9_retry_exhaustion resp503 (fun n i => rfl)
  exact ⟨h.1, h.2.1, h.2.2 9⟩

/-- C10: a response whose status is neither 200 nor in the retryable set
(including other success-family codes such as 201 or 204) makes the fetcher
return the failure value after exactly one attempt, with no retry and no
backoff wait. -/
theorem C10_non_retryable_immediate (resp : Nat → HttpResponse)
    (h200 : (resp 0).status ≠ 200)
    (hr : (resp 0).status ∉ retryableStatuses) :
    fetch_page resp = ⟨none, 1, 0⟩ := by
  unfold fetch_page
  rw [show (5 : Nat) = 4 + 1 from rfl]
  simp [fetchPageGo, h200, hr]

/-- Witness for C10 at a server answering the success-family status 201. -/
theorem C10_non_retryable_immediate_witness :
    fetch_page resp201 = ⟨none, 1, 0⟩ :=
  C10_non_retryable_immediate resp201 (by decide) (by decide)

end Scraper
